import Mathlib

/-!
# Verification of the digital-twin conversational backend

A shallow embedding of `src/backend/server.py`: the multi-region Bedrock
inference dispatch with failover (`call_bedrock`), the pluggable
conversation-memory store (`load_conversation` / `save_conversation`,
filesystem or S3 backend), and the `chat` orchestrator, together with
theorems settling the specification's claims about them.

External effects are modelled explicitly:
* JSON documents (`json.dumps` / `json.load`) as an inductive `Json` value
  with an encoder/decoder for message lists;
* the filesystem / S3 object store as a map from path / key to the stored
  JSON document;
* each Bedrock `converse` invocation's outcome as a tagged result
  (success / throttling / access-denied / validation / other), supplied by
  an environment function from the built message list and the attempt
  number;
* `uuid.uuid4()` and `datetime.now()` as values supplied by the
  environment.
-/

namespace DigitalTwin

/-- JSON values, as produced by `json.dumps` and consumed by `json.load`.
Only the shapes this program ever writes are needed (strings, arrays,
objects). -/
inductive Json where
  | str (s : String)
  | arr (elems : List Json)
  | obj (fields : List (String × Json))
deriving Repr

/-- A conversation message `{role, content, timestamp}` as appended by the
`chat` endpoint (`server.py` lines 239-248). -/
structure Message where
  role : String
  content : String
  timestamp : String
deriving Repr, DecidableEq

/-- Encoding of one message as the JSON object the server writes. -/
def encodeMessage (m : Message) : Json :=
  .obj [("role", .str m.role), ("content", .str m.content),
        ("timestamp", .str m.timestamp)]

/-- Encoding of a whole conversation log: a JSON array in chronological
order, as written by `json.dump(messages, f)`. -/
def encodeMessages (msgs : List Message) : Json :=
  .arr (msgs.map encodeMessage)

/-- First binding of a key in a JSON object, modelling Python dict access
`d[k]` on a parsed object (parsed dicts have unique keys). -/
def lookupField (fields : List (String × Json)) (k : String) : Option Json :=
  (fields.find? (fun f => f.1 = k)).map (fun f => f.2)

/-- Reading a string out of a JSON value. -/
def asString : Json → Option String
  | .str s => some s
  | _ => none

/-- Reading one parsed JSON value back as a message: the dict accesses
`msg["role"]`, `msg["content"]` (and the timestamp field) performed on
loaded history. -/
def decodeMessage (j : Json) : Option Message :=
  match j with
  | .obj fields => do
      let role ← lookupField fields "role" >>= asString
      let content ← lookupField fields "content" >>= asString
      let timestamp ← lookupField fields "timestamp" >>= asString
      pure ⟨role, content, timestamp⟩
  | _ => none

/-- Reading each element of a parsed JSON array back as a message,
failing if any element is malformed. -/
def decodeMessageList : List Json → Option (List Message)
  | [] => some []
  | j :: rest => do
      let m ← decodeMessage j
      let ms ← decodeMessageList rest
      pure (m :: ms)

/-- Reading a parsed JSON document back as a conversation log.  `none`
models a stored document that is not a well-formed message array (the
program itself never writes one). -/
def decodeMessages (j : Json) : Option (List Message) :=
  match j with
  | .arr elems => decodeMessageList elems
  | _ => none

/-- `get_memory_path` (`server.py` line 78-79): the storage key derived
from the session id. -/
def get_memory_path (session_id : String) : String :=
  session_id ++ ".json"

/-- `os.path.join(MEMORY_DIR, name)` for the relative file names this
program produces. -/
def joinPath (dir name : String) : String :=
  dir ++ "/" ++ name

/-- Filesystem backend state: the contents of the memory directory, as a
map from file path to the parsed JSON document stored there (`none` =
file absent, the `os.path.exists` test). -/
structure FsState where
  files : String → Option Json

/-- S3 backend state: the objects of the configured bucket, as a map from
key to stored JSON document (`none` = `NoSuchKey`). -/
structure S3State where
  objects : String → Option Json

/-- The storage backend selected once at startup by `USE_S3`
(`server.py` line 51): exactly one of the two interchangeable backends. -/
inductive StoreState where
  | fs (memoryDir : String) (st : FsState)
  | s3 (st : S3State)

/-- `load_conversation` (`server.py` lines 82-98): load the conversation
history from storage.  A missing file / `NoSuchKey` yields the empty
list; a present document is the parsed JSON read back as messages
(`none` = document malformed, which the program never writes). -/
def load_conversation (store : StoreState) (session_id : String) :
    Option (List Message) :=
  match store with
  | .s3 st =>
      match st.objects (get_memory_path session_id) with
      | some doc => decodeMessages doc
      | none => some []
  | .fs dir st =>
      match st.files (joinPath dir (get_memory_path session_id)) with
      | some doc => decodeMessages doc
      | none => some []

/-- `save_conversation` (`server.py` lines 101-115): persist the full log,
overwriting prior content, under the same derived path / key. -/
def save_conversation (store : StoreState) (session_id : String)
    (messages : List Message) : StoreState :=
  match store with
  | .s3 st =>
      .s3 ⟨fun k =>
        if k = get_memory_path session_id then some (encodeMessages messages)
        else st.objects k⟩
  | .fs dir st =>
      .fs dir ⟨fun p =>
        if p = joinPath dir (get_memory_path session_id) then
          some (encodeMessages messages)
        else st.files p⟩

/-- One entry of the wire format sent to Bedrock's `converse` API:
`{role, content: [{text}]}` (`server.py` lines 126-142). -/
structure BedrockMessage where
  role : String
  content : List String
deriving Repr, DecidableEq

/-- The message sequence built at the top of `call_bedrock`
(`server.py` lines 122-142): a synthetic leading entry carrying the system
prompt, then the last 20 stored messages (`conversation[-20:]`), then the
new user message.  `List.drop (length - 20)` is Python's `l[-20:]`: the
whole list when it has at most 20 elements, its last 20 otherwise. -/
def build_bedrock_messages (systemPrompt : String) (conversation : List Message)
    (user_message : String) : List BedrockMessage :=
  ⟨"user", ["System: " ++ systemPrompt]⟩ ::
    ((conversation.drop (conversation.length - 20)).map
        (fun msg => ⟨msg.role, [msg.content]⟩) ++
      [⟨"user", [user_message]⟩])

/-- Outcome of one `client.converse(...)` invocation, classified the way
`call_bedrock`'s exception handler does (`server.py` lines 169-195):
success, `ThrottlingException`, `AccessDeniedException`,
`ValidationException`, or any other `ClientError`. -/
inductive BedrockOutcome where
  | success (text : String)
  | throttled
  | accessDenied
  | invalidRequest
  | otherError (msg : String)
deriving Repr, DecidableEq

/-- Whether `call_bedrock` retries this outcome on the next region
(`ThrottlingException` and `AccessDeniedException` branches). -/
def retryable : BedrockOutcome → Bool
  | .throttled => true
  | .accessDenied => true
  | _ => false

/-- The structured detail of each `HTTPException` the dispatcher and
orchestrator raise, one constructor per `detail=` f-string in the
source. -/
inductive ErrorDetail where
  | invalidMessageFormat
  | bedrockError (msg : String)
  | allRegionsThrottled (regions : List String)
  | internalError (msg : String)
deriving Repr, DecidableEq

/-- A raised `HTTPException(status_code, detail)`. -/
structure HTTPError where
  status_code : Nat
  detail : ErrorDetail
deriving Repr, DecidableEq

/-- The environment of one dispatch call: the outcome of the k-th
`converse` invocation (k = 0,1,...) given the message list sent. -/
abbrev ConverseEnv := List BedrockMessage → Nat → BedrockOutcome

/-- Result of `call_bedrock`: the reply text or the raised
`HTTPException`, the final value of the `current_region_index` global,
and the trace of region indices attempted (in order). -/
structure DispatchOutput where
  result : Except HTTPError String
  cursor : Nat
  attempted : List Nat

/-- The `while regions_tried < len(BEDROCK_REGIONS)` failover loop of
`call_bedrock` (`server.py` lines 148-202).  `cursor` is the
`current_region_index` global, `regionsTried` the `regions_tried`
counter, `attemptIdx` counts `converse` invocations so the environment
can vary per attempt, and `attempted` accumulates the region indices
tried so far. -/
def dispatchLoop (regions : List String) (msgs : List BedrockMessage)
    (env : ConverseEnv) (cursor regionsTried attemptIdx : Nat)
    (attempted : List Nat) : DispatchOutput :=
  if regionsTried < regions.length then
    match env msgs attemptIdx with
    | .success text =>
        ⟨.ok text, cursor, attempted ++ [cursor]⟩
    | .throttled =>
        dispatchLoop regions msgs env ((cursor + 1) % regions.length)
          (regionsTried + 1) (attemptIdx + 1) (attempted ++ [cursor])
    | .accessDenied =>
        dispatchLoop regions msgs env ((cursor + 1) % regions.length)
          (regionsTried + 1) (attemptIdx + 1) (attempted ++ [cursor])
    | .invalidRequest =>
        ⟨.error ⟨400, .invalidMessageFormat⟩, cursor, attempted ++ [cursor]⟩
    | .otherError m =>
        ⟨.error ⟨500, .bedrockError m⟩, cursor, attempted ++ [cursor]⟩
  else
    ⟨.error ⟨429, .allRegionsThrottled regions⟩, cursor, attempted⟩
termination_by regions.length - regionsTried

/-- `call_bedrock` (`server.py` lines 118-202): build the message list,
then try each region with failover, starting at the process-wide region
cursor. -/
def call_bedrock (regions : List String) (systemPrompt : String)
    (env : ConverseEnv) (cursor : Nat) (conversation : List Message)
    (user_message : String) : DispatchOutput :=
  dispatchLoop regions (build_bedrock_messages systemPrompt conversation user_message)
    env cursor 0 0 []

/-- The request body of `POST /chat` (`ChatRequest`, `server.py`
lines 61-63). -/
structure ChatRequest where
  message : String
  session_id : Option String
deriving Repr, DecidableEq

/-- The response body of `POST /chat` (`ChatResponse`, `server.py`
lines 66-68). -/
structure ChatResponse where
  response : String
  session_id : String
deriving Repr, DecidableEq

/-- `request.session_id or str(uuid.uuid4())` (`server.py` line 230):
Python's `or` falls through to the generated id when `session_id` is
absent or the empty (falsy) string. -/
def resolve_session_id (requested : Option String) (freshId : String) : String :=
  match requested with
  | none => freshId
  | some s => if s = "" then freshId else s

/-- Environment of one `chat` request: the generated `uuid.uuid4()`
value, the two `datetime.now().isoformat()` timestamps, the outcome of
each `converse` invocation, and whether the storage backend raises on
load / save (`some msg` = an exception with message `msg`, caught by
`chat`'s generic handler). -/
structure ChatEnv where
  freshId : String
  ts_user : String
  ts_assistant : String
  converse : ConverseEnv
  loadError : Option String
  saveError : Option String

/-- Result of one `chat` request: the response or raised
`HTTPException`, the final region cursor, and the resulting store
state. -/
structure ChatOutput where
  result : Except HTTPError ChatResponse
  cursor : Nat
  store : StoreState

/-- The `chat` endpoint (`server.py` lines 227-259): resolve the session
id, load history, call Bedrock, append the user and assistant turns with
the current timestamps, save, and return the reply; `HTTPException`s are
re-raised and any other exception becomes a 500 whose detail is the
exception's message.  A storage exception on load or save is modelled by
`env.loadError` / `env.saveError`; a stored document that does not parse
as a message list fails the request with a 500 (in Python, the garbage
history raises a `TypeError` downstream, caught by the same generic
handler) and touches nothing. -/
def chat (regions : List String) (systemPrompt : String) (env : ChatEnv)
    (cursor : Nat) (store : StoreState) (request : ChatRequest) : ChatOutput :=
  let session_id := resolve_session_id request.session_id env.freshId
  match env.loadError with
  | some msg => ⟨.error ⟨500, .internalError msg⟩, cursor, store⟩
  | none =>
    match load_conversation store session_id with
    | none => ⟨.error ⟨500, .internalError "conversation log is malformed"⟩,
               cursor, store⟩
    | some conversation =>
      let out := call_bedrock regions systemPrompt env.converse cursor
        conversation request.message
      match out.result with
      | .error e => ⟨.error e, out.cursor, store⟩
      | .ok assistant_response =>
        let conversation' := conversation ++
          [⟨"user", request.message, env.ts_user⟩,
           ⟨"assistant", assistant_response, env.ts_assistant⟩]
        match env.saveError with
        | some msg => ⟨.error ⟨500, .internalError msg⟩, out.cursor, store⟩
        | none =>
          ⟨.ok ⟨assistant_response, session_id⟩, out.cursor,
            save_conversation store session_id conversation'⟩

/-- The `GET /conversation/{session_id}` endpoint (`server.py`
lines 262-269): return the stored log verbatim. -/
def get_conversation (store : StoreState) (session_id : String) :
    Except HTTPError (String × List Message) :=
  match load_conversation store session_id with
  | some conversation => .ok (session_id, conversation)
  | none => .error ⟨500, .internalError "conversation log is malformed"⟩

/-! ## Serialization and store lemmas -/

/-- Decoding inverts encoding on a single message. -/
lemma decodeMessage_encodeMessage (m : Message) :
    decodeMessage (encodeMessage m) = some m := rfl

/-- Decoding inverts encoding on a whole log: the JSON document written
by `save_conversation` parses back to exactly the same message list. -/
lemma decodeMessages_encodeMessages (msgs : List Message) :
    decodeMessages (encodeMessages msgs) = some msgs := by
  induction msgs with
  | nil => rfl
  | cons m rest ih =>
      simp only [encodeMessages, decodeMessages, List.map_cons,
        decodeMessageList, decodeMessage_encodeMessage] at *
      simp [ih]

/-- `.json` keys derived from distinct session ids are distinct. -/
lemma get_memory_path_injective {a b : String}
    (h : get_memory_path a = get_memory_path b) : a = b := by
  have hd : a.data ++ ".json".data = b.data ++ ".json".data := by
    have := congrArg String.data h
    simpa [get_memory_path, String.data_append] using this
  exact String.ext (List.append_cancel_right hd)

/-- Joining distinct names under the same directory gives distinct
paths. -/
lemma joinPath_injective {dir a b : String}
    (h : joinPath dir a = joinPath dir b) : a = b := by
  have hd : (dir ++ "/").data ++ a.data = (dir ++ "/").data ++ b.data := by
    have := congrArg String.data h
    simpa [joinPath, String.data_append, List.append_assoc] using this
  exact String.ext (List.append_cancel_left hd)

/-- Saving writes only under the key of the session being saved: any
other session's log reads back unchanged. -/
lemma load_conversation_save_other (store : StoreState) (sid other : String)
    (msgs : List Message) (hne : other ≠ sid) :
    load_conversation (save_conversation store sid msgs) other =
      load_conversation store other := by
  cases store with
  | s3 st =>
      have hk : get_memory_path other ≠ get_memory_path sid :=
        fun h => hne (get_memory_path_injective h)
      simp [load_conversation, save_conversation, hk]
  | fs dir st =>
      have hk : joinPath dir (get_memory_path other) ≠
          joinPath dir (get_memory_path sid) :=
        fun h => hne (get_memory_path_injective (joinPath_injective h))
      simp [load_conversation, save_conversation, hk]

/-- Loading right after saving the same session returns the saved log. -/
lemma load_conversation_save (store : StoreState) (sid : String)
    (msgs : List Message) :
    load_conversation (save_conversation store sid msgs) sid = some msgs := by
  cases store with
  | s3 st => simp [load_conversation, save_conversation,
      decodeMessages_encodeMessages]
  | fs dir st => simp [load_conversation, save_conversation,
      decodeMessages_encodeMessages]

/-! ## Claim theorems about the conversation store -/

/-- C3: for every session id and every message sequence, `save` then
`load` of the same session returns exactly that sequence, in order,
under both the filesystem backend and the object-storage backend. -/
theorem save_load_roundtrip (session_id dir : String) (msgs : List Message)
    (fsSt : FsState) (s3St : S3State) :
    load_conversation (save_conversation (.fs dir fsSt) session_id msgs)
        session_id = some msgs ∧
    load_conversation (save_conversation (.s3 s3St) session_id msgs)
        session_id = some msgs :=
  ⟨load_conversation_save _ _ _, load_conversation_save _ _ _⟩

/-- C8: for every session id with no stored record — a missing file under
the filesystem backend, an absent key under the object-storage backend —
`load_conversation` returns the empty message list rather than an
error. -/
theorem load_missing_session_empty (session_id dir : String)
    (fsSt : FsState) (s3St : S3State)
    (hfs : fsSt.files (joinPath dir (get_memory_path session_id)) = none)
    (hs3 : s3St.objects (get_memory_path session_id) = none) :
    load_conversation (.fs dir fsSt) session_id = some [] ∧
    load_conversation (.s3 s3St) session_id = some [] := by
  constructor
  · simp [load_conversation, hfs]
  · simp [load_conversation, hs3]

/-- Witness for C8: both backends with empty storage, session `"s1"`. -/
theorem load_missing_session_empty_witness :
    load_conversation (.fs "../memory" ⟨fun _ => none⟩) "s1" = some [] ∧
    load_conversation (.s3 ⟨fun _ => none⟩) "s1" = some [] :=
  load_missing_session_empty "s1" "../memory" ⟨fun _ => none⟩ ⟨fun _ => none⟩
    rfl rfl

/-- C4: the message sequence sent to the inference backend is the
synthetic system entry, then at most the last 20 stored messages in
order (a suffix of the stored log, all of it when it is short, exactly
20 when it is long), then the new user message. -/
theorem history_bounded_to_20 (systemPrompt user_message : String)
    (conversation : List Message) :
    ∃ recent : List Message,
      build_bedrock_messages systemPrompt conversation user_message =
        ⟨"user", ["System: " ++ systemPrompt]⟩ ::
          (recent.map (fun msg => ⟨msg.role, [msg.content]⟩) ++
            [⟨"user", [user_message]⟩]) ∧
      recent.length ≤ 20 ∧
      recent <:+ conversation ∧
      (20 ≤ conversation.length → recent.length = 20) := by
  refine ⟨conversation.drop (conversation.length - 20), rfl, ?_, ?_, ?_⟩
  · rw [List.length_drop]; omega
  · exact List.drop_suffix _ _
  · intro h; rw [List.length_drop]; omega

/-- Witness for C4: a stored log of 25 messages — only its last 20 go to
the model. -/
theorem history_bounded_to_20_witness :
    ∃ recent : List Message,
      build_bedrock_messages "sys"
          (List.replicate 25 ⟨"user", "x", "t"⟩) "hi" =
        ⟨"user", ["System: " ++ "sys"]⟩ ::
          (recent.map (fun msg => ⟨msg.role, [msg.content]⟩) ++
            [⟨"user", ["hi"]⟩]) ∧
      recent.length ≤ 20 ∧
      recent <:+ List.replicate 25 ⟨"user", "x", "t"⟩ ∧
      (20 ≤ (List.replicate 25 (⟨"user", "x", "t"⟩ : Message)).length →
        recent.length = 20) :=
  history_bounded_to_20 "sys" "hi" (List.replicate 25 ⟨"user", "x", "t"⟩)

/-! ## Dispatch loop lemmas -/

/-- One unfolding of the failover loop while regions remain. -/
lemma dispatchLoop_step (regions : List String) (msgs : List BedrockMessage)
    (env : ConverseEnv) (cursor regionsTried attemptIdx : Nat)
    (attempted : List Nat) (hlt : regionsTried < regions.length) :
    dispatchLoop regions msgs env cursor regionsTried attemptIdx attempted =
      match env msgs attemptIdx with
      | .success text => ⟨.ok text, cursor, attempted ++ [cursor]⟩
      | .throttled =>
          dispatchLoop regions msgs env ((cursor + 1) % regions.length)
            (regionsTried + 1) (attemptIdx + 1) (attempted ++ [cursor])
      | .accessDenied =>
          dispatchLoop regions msgs env ((cursor + 1) % regions.length)
            (regionsTried + 1) (attemptIdx + 1) (attempted ++ [cursor])
      | .invalidRequest =>
          ⟨.error ⟨400, .invalidMessageFormat⟩, cursor, attempted ++ [cursor]⟩
      | .otherError m =>
          ⟨.error ⟨500, .bedrockError m⟩, cursor, attempted ++ [cursor]⟩ := by
  conv_lhs => unfold dispatchLoop
  rw [if_pos hlt]

/-- Exhaustion: once `regions_tried` reaches the region count the loop
raises the 429 naming the configured regions. -/
lemma dispatchLoop_exhausted (regions : List String) (msgs : List BedrockMessage)
    (env : ConverseEnv) (cursor regionsTried attemptIdx : Nat)
    (attempted : List Nat) (h : ¬ regionsTried < regions.length) :
    dispatchLoop regions msgs env cursor regionsTried attemptIdx attempted =
      ⟨.error ⟨429, .allRegionsThrottled regions⟩, cursor, attempted⟩ := by
  conv_lhs => unfold dispatchLoop
  rw [if_neg h]

/-- A successful attempt returns the reply at once, leaving the cursor
as-is. -/
lemma dispatchLoop_success (regions : List String) (msgs : List BedrockMessage)
    (env : ConverseEnv) (cursor regionsTried attemptIdx : Nat)
    (attempted : List Nat) (hlt : regionsTried < regions.length) (text : String)
    (h : env msgs attemptIdx = .success text) :
    dispatchLoop regions msgs env cursor regionsTried attemptIdx attempted =
      ⟨.ok text, cursor, attempted ++ [cursor]⟩ := by
  rw [dispatchLoop_step regions msgs env cursor regionsTried attemptIdx
    attempted hlt, h]

/-- A retryable attempt (throttled or access-denied) advances the cursor
by one modulo the region count and continues. -/
lemma dispatchLoop_retry (regions : List String) (msgs : List BedrockMessage)
    (env : ConverseEnv) (cursor regionsTried attemptIdx : Nat)
    (attempted : List Nat) (hlt : regionsTried < regions.length)
    (h : retryable (env msgs attemptIdx) = true) :
    dispatchLoop regions msgs env cursor regionsTried attemptIdx attempted =
      dispatchLoop regions msgs env ((cursor + 1) % regions.length)
        (regionsTried + 1) (attemptIdx + 1) (attempted ++ [cursor]) := by
  rw [dispatchLoop_step regions msgs env cursor regionsTried attemptIdx
    attempted hlt]
  cases houtcome : env msgs attemptIdx <;> simp [retryable, houtcome] at h ⊢

/-- An invalid-request attempt fails at once with the 400. -/
lemma dispatchLoop_invalid (regions : List String) (msgs : List BedrockMessage)
    (env : ConverseEnv) (cursor regionsTried attemptIdx : Nat)
    (attempted : List Nat) (hlt : regionsTried < regions.length)
    (h : env msgs attemptIdx = .invalidRequest) :
    dispatchLoop regions msgs env cursor regionsTried attemptIdx attempted =
      ⟨.error ⟨400, .invalidMessageFormat⟩, cursor, attempted ++ [cursor]⟩ := by
  rw [dispatchLoop_step regions msgs env cursor regionsTried attemptIdx
    attempted hlt, h]

/-- Prepending the cursor to a run of successive cursors started one step
later gives a run started at the cursor. -/
lemma cursor_cons_range (N c k : Nat) (hc : c < N) :
    c :: (List.range k).map (fun j => ((c + 1) % N + j) % N) =
      (List.range (k + 1)).map (fun j => (c + j) % N) := by
  rw [List.range_succ_eq_map, List.map_cons, List.map_map]
  refine congrArg₂ _ ?_ ?_
  · simp [Nat.mod_eq_of_lt hc]
  · refine List.map_congr_left ?_
    intro j _
    simp only [Function.comp_apply, Nat.mod_add_mod, Nat.succ_eq_add_one]
    rw [Nat.add_assoc, Nat.add_comm 1 j]

/-- Running the loop through `k` successive retryable outcomes: the
cursor advances `k` times by one modulo the region count, the counters
advance by `k`, and the `k` attempted indices are recorded in order. -/
lemma dispatchLoop_retry_run (regions : List String) (msgs : List BedrockMessage)
    (env : ConverseEnv) (k : Nat) :
    ∀ (cursor regionsTried attemptIdx : Nat) (attempted : List Nat),
      cursor < regions.length →
      regionsTried + k ≤ regions.length →
      (∀ j, j < k → retryable (env msgs (attemptIdx + j)) = true) →
      dispatchLoop regions msgs env cursor regionsTried attemptIdx attempted =
        dispatchLoop regions msgs env ((cursor + k) % regions.length)
          (regionsTried + k) (attemptIdx + k)
          (attempted ++
            (List.range k).map (fun j => (cursor + j) % regions.length)) := by
  induction k with
  | zero =>
      intro cursor regionsTried attemptIdx attempted hc _ _
      simp [Nat.mod_eq_of_lt hc]
  | succ k ih =>
      intro cursor regionsTried attemptIdx attempted hc hle hret
      have hlt : regionsTried < regions.length := by omega
      have hN : 0 < regions.length := by omega
      have h0 : retryable (env msgs attemptIdx) = true := by
        simpa using hret 0 (by omega)
      rw [dispatchLoop_retry regions msgs env cursor regionsTried attemptIdx
        attempted hlt h0]
      rw [ih ((cursor + 1) % regions.length) (regionsTried + 1)
        (attemptIdx + 1) (attempted ++ [cursor]) (Nat.mod_lt _ hN) (by omega)
        (fun j hj => by
          have := hret (j + 1) (by omega)
          simpa [Nat.add_assoc, Nat.add_comm 1 j] using this)]
      have harr : (attempted ++ [cursor]) ++
          (List.range k).map (fun j => ((cursor + 1) % regions.length + j) %
            regions.length) =
          attempted ++ (List.range (k + 1)).map
            (fun j => (cursor + j) % regions.length) := by
        rw [List.append_assoc, List.singleton_append,
          cursor_cons_range regions.length cursor k hc]
      rw [harr]
      have hcur : ((cursor + 1) % regions.length + k) % regions.length =
          (cursor + (k + 1)) % regions.length := by
        rw [Nat.mod_add_mod, Nat.add_assoc, Nat.add_comm 1 k]
      rw [hcur]
      have hidx : attemptIdx + 1 + k = attemptIdx + (k + 1) := by omega
      have htried : regionsTried + 1 + k = regionsTried + (k + 1) := by omega
      rw [hidx, htried]

/-- Shape of a whole loop run: some `k ≤ regions.length - regions_tried`
attempts happen, recorded in order as `k` successive cursor positions; at
least one attempt happens while regions remain; and the run ends in the
429 exhaustion error exactly when all remaining regions were attempted. -/
lemma dispatchLoop_shape (regions : List String) (msgs : List BedrockMessage)
    (env : ConverseEnv) (d : Nat) :
    ∀ (cursor regionsTried attemptIdx : Nat) (attempted : List Nat),
      d = regions.length - regionsTried →
      cursor < regions.length →
      ∃ k, k ≤ d ∧ (0 < d → 0 < k) ∧
        (dispatchLoop regions msgs env cursor regionsTried attemptIdx
            attempted).attempted =
          attempted ++
            (List.range k).map (fun j => (cursor + j) % regions.length) ∧
        ((dispatchLoop regions msgs env cursor regionsTried attemptIdx
            attempted).result =
          .error ⟨429, .allRegionsThrottled regions⟩ → k = d) := by
  induction d with
  | zero =>
      intro cursor regionsTried attemptIdx attempted hd hc
      have h : ¬ regionsTried < regions.length := by omega
      refine ⟨0, Nat.le_refl 0, by omega, ?_, fun _ => rfl⟩
      rw [dispatchLoop_exhausted regions msgs env cursor regionsTried
        attemptIdx attempted h]
      simp
  | succ d ih =>
      intro cursor regionsTried attemptIdx attempted hd hc
      have hlt : regionsTried < regions.length := by omega
      have hN : 0 < regions.length := by omega
      cases houtcome : env msgs attemptIdx with
      | success text =>
          refine ⟨1, by omega, by omega, ?_, ?_⟩
          · rw [dispatchLoop_success regions msgs env cursor regionsTried
              attemptIdx attempted hlt text houtcome]
            simp [List.range_succ, Nat.mod_eq_of_lt hc]
          · intro hres
            rw [dispatchLoop_success regions msgs env cursor regionsTried
              attemptIdx attempted hlt text houtcome] at hres
            simp at hres
      | invalidRequest =>
          refine ⟨1, by omega, by omega, ?_, ?_⟩
          · rw [dispatchLoop_invalid regions msgs env cursor regionsTried
              attemptIdx attempted hlt houtcome]
            simp [List.range_succ, Nat.mod_eq_of_lt hc]
          · intro hres
            rw [dispatchLoop_invalid regions msgs env cursor regionsTried
              attemptIdx attempted hlt houtcome] at hres
            simp [HTTPError.mk.injEq] at hres
      | otherError m =>
          have hstep := dispatchLoop_step regions msgs env cursor regionsTried
            attemptIdx attempted hlt
          rw [houtcome] at hstep
          refine ⟨1, by omega, by omega, ?_, ?_⟩
          · rw [hstep]; simp [List.range_succ, Nat.mod_eq_of_lt hc]
          · intro hres
            rw [hstep] at hres
            simp [HTTPError.mk.injEq] at hres
      | throttled =>
          have hret : retryable (env msgs attemptIdx) = true := by
            simp [retryable, houtcome]
          obtain ⟨k, hk, _, hatt, hex⟩ := ih ((cursor + 1) % regions.length)
            (regionsTried + 1) (attemptIdx + 1) (attempted ++ [cursor])
            (by omega) (Nat.mod_lt _ hN)
          refine ⟨k + 1, by omega, by omega, ?_, ?_⟩
          · rw [dispatchLoop_retry regions msgs env cursor regionsTried
              attemptIdx attempted hlt hret, hatt, List.append_assoc,
              List.singleton_append,
              cursor_cons_range regions.length cursor k hc]
          · intro hres
            rw [dispatchLoop_retry regions msgs env cursor regionsTried
              attemptIdx attempted hlt hret] at hres
            have := hex hres
            omega
      | accessDenied =>
          have hret : retryable (env msgs attemptIdx) = true := by
            simp [retryable, houtcome]
          obtain ⟨k, hk, _, hatt, hex⟩ := ih ((cursor + 1) % regions.length)
            (regionsTried + 1) (attemptIdx + 1) (attempted ++ [cursor])
            (by omega) (Nat.mod_lt _ hN)
          refine ⟨k + 1, by omega, by omega, ?_, ?_⟩
          · rw [dispatchLoop_retry regions msgs env cursor regionsTried
              attemptIdx attempted hlt hret, hatt, List.append_assoc,
              List.singleton_append,
              cursor_cons_range regions.length cursor k hc]
          · intro hres
            rw [dispatchLoop_retry regions msgs env cursor regionsTried
              attemptIdx attempted hlt hret] at hres
            have := hex hres
            omega

/-- A dispatch whose every attempt is retryable exhausts all regions: it
raises the 429 naming the configured region list, leaves the cursor where
it started (it wrapped all the way around), and attempted the full cycle
of region indices starting at the cursor. -/
lemma call_bedrock_all_retryable (regions : List String)
    (systemPrompt : String) (env : ConverseEnv) (cursor : Nat)
    (conversation : List Message) (user_message : String)
    (hc : cursor < regions.length)
    (hall : ∀ j, j < regions.length →
      retryable (env (build_bedrock_messages systemPrompt conversation
        user_message) j) = true) :
    call_bedrock regions systemPrompt env cursor conversation user_message =
      ⟨.error ⟨429, .allRegionsThrottled regions⟩, cursor,
        (List.range regions.length).map
          (fun j => (cursor + j) % regions.length)⟩ := by
  unfold call_bedrock
  rw [dispatchLoop_retry_run regions _ env regions.length cursor 0 0 []
    hc (by omega) (fun j hj => by simpa using hall j hj)]
  rw [dispatchLoop_exhausted _ _ _ _ _ _ _ (by omega)]
  simp [Nat.add_mod_right, Nat.mod_eq_of_lt hc]

/-- A dispatch whose very first attempt succeeds returns that reply,
leaving the cursor as-is and attempting only the cursor's region. -/
lemma call_bedrock_first_success (regions : List String)
    (systemPrompt : String) (env : ConverseEnv) (cursor : Nat)
    (conversation : List Message) (user_message reply : String)
    (h0 : 0 < regions.length)
    (hs : env (build_bedrock_messages systemPrompt conversation user_message)
      0 = .success reply) :
    call_bedrock regions systemPrompt env cursor conversation user_message =
      ⟨.ok reply, cursor, [cursor]⟩ := by
  unfold call_bedrock
  rw [dispatchLoop_success _ _ _ _ _ _ _ h0 reply hs]
  rw [List.nil_append]

/-- Every region index is covered by a full cycle of cursor positions. -/
lemma mem_range_map_mod (N c i : Nat) (hc : c < N) (hi : i < N) :
    i ∈ (List.range N).map (fun j => (c + j) % N) := by
  rcases le_or_lt c i with h | h
  · refine List.mem_map.mpr ⟨i - c, List.mem_range.mpr (by omega), ?_⟩
    have hci : c + (i - c) = i := by omega
    rw [hci, Nat.mod_eq_of_lt hi]
  · refine List.mem_map.mpr ⟨i + N - c, List.mem_range.mpr (by omega), ?_⟩
    have hci : c + (i + N - c) = i + N := by omega
    rw [hci, Nat.add_mod_right, Nat.mod_eq_of_lt hi]

/-- At most one cycle of successive cursor positions has no repeats. -/
lemma nodup_range_map_mod (N c k : Nat) (hc : c < N) (hk : k ≤ N) :
    ((List.range k).map (fun j => (c + j) % N)).Nodup := by
  refine List.Nodup.map_on ?_ (List.nodup_range k)
  intro i hi j hj hij
  rw [List.mem_range] at hi hj
  have h2 : i % N = j % N := Nat.ModEq.add_left_cancel' c hij
  rwa [Nat.mod_eq_of_lt (by omega), Nat.mod_eq_of_lt (by omega)] at h2

/-- While regions remain, the first attempt of a dispatch is made at the
starting cursor's region. -/
lemma call_bedrock_first_attempt (regions : List String)
    (systemPrompt : String) (env : ConverseEnv) (cursor : Nat)
    (conversation : List Message) (user_message : String)
    (hc : cursor < regions.length) :
    (call_bedrock regions systemPrompt env cursor conversation
      user_message).attempted.head? = some cursor := by
  obtain ⟨k, hk, hkpos, hatt, -⟩ := dispatchLoop_shape regions
    (build_bedrock_messages systemPrompt conversation user_message) env
    regions.length cursor 0 0 [] (by omega) hc
  unfold call_bedrock
  rw [hatt, List.nil_append]
  have hk0 : 0 < k := hkpos (by omega)
  cases k with
  | zero => omega
  | succ k =>
      rw [List.range_succ_eq_map, List.map_cons, List.head?_cons,
        Nat.add_zero, Nat.mod_eq_of_lt hc]

/-! ## Claim theorems about the inference dispatcher -/

/-- C6: if some attempted region answers with the malformed-request
(`ValidationException`) error — after any number of retryable failures
before it — the dispatch fails at once with the 400 client-input error,
and the attempted trace stops at that region: no other region is tried,
no matter how many remain. -/
theorem invalid_request_fails_immediately (regions : List String)
    (systemPrompt : String) (env : ConverseEnv) (cursor k : Nat)
    (conversation : List Message) (user_message : String)
    (hc : cursor < regions.length) (hk : k < regions.length)
    (hbefore : ∀ j, j < k →
      retryable (env (build_bedrock_messages systemPrompt conversation
        user_message) j) = true)
    (hinv : env (build_bedrock_messages systemPrompt conversation
      user_message) k = .invalidRequest) :
    call_bedrock regions systemPrompt env cursor conversation user_message =
      ⟨.error ⟨400, .invalidMessageFormat⟩, (cursor + k) % regions.length,
        (List.range (k + 1)).map (fun j => (cursor + j) % regions.length)⟩ := by
  unfold call_bedrock
  rw [dispatchLoop_retry_run regions _ env k cursor 0 0 [] hc (by omega)
    (fun j hj => by simpa using hbefore j hj)]
  rw [dispatchLoop_invalid _ _ _ _ _ _ _ (by omega) (by simpa using hinv)]
  rw [List.nil_append, List.range_succ, List.map_append, List.map_singleton]

/-- Witness for C6: three regions, an access-denied failure on the first
attempt and `ValidationException` on the second: the 400 is raised after
exactly two attempts, the third region untouched. -/
theorem invalid_request_fails_immediately_witness :
    call_bedrock ["us-west-2", "us-east-1", "us-east-2"] "sys"
        (fun _ j => if j = 0 then .accessDenied else .invalidRequest) 0 [] "q" =
      ⟨.error ⟨400, .invalidMessageFormat⟩, (0 + 1) % 3,
        (List.range 2).map (fun j => (0 + j) % 3)⟩ :=
  invalid_request_fails_immediately ["us-west-2", "us-east-1", "us-east-2"]
    "sys" (fun _ j => if j = 0 then .accessDenied else .invalidRequest)
    0 1 [] "q" (by decide) (by decide)
    (fun j hj => by
      have hj0 : j = 0 := by omega
      subst hj0; rfl)
    rfl

/-- C7: with every attempt throttled or access-denied, the loop
terminates with exhaustion after exactly as many attempts as there are
configured regions, raising the 429 whose detail names the configured
region list — and every configured region index was attempted.
Conversely, for any outcome environment, a dispatch that ends in this
exhaustion error made exactly `regions.length` attempts. -/
theorem exhaustion_raises_429_naming_regions (regions : List String)
    (systemPrompt : String) (env : ConverseEnv) (cursor : Nat)
    (conversation : List Message) (user_message : String)
    (hc : cursor < regions.length)
    (hall : ∀ j, j < regions.length →
      retryable (env (build_bedrock_messages systemPrompt conversation
        user_message) j) = true) :
    (call_bedrock regions systemPrompt env cursor conversation
        user_message).result = .error ⟨429, .allRegionsThrottled regions⟩ ∧
    (call_bedrock regions systemPrompt env cursor conversation
        user_message).attempted.length = regions.length ∧
    (∀ i, i < regions.length →
      i ∈ (call_bedrock regions systemPrompt env cursor conversation
        user_message).attempted) ∧
    (∀ env' : ConverseEnv,
      (call_bedrock regions systemPrompt env' cursor conversation
          user_message).result = .error ⟨429, .allRegionsThrottled regions⟩ →
      (call_bedrock regions systemPrompt env' cursor conversation
          user_message).attempted.length = regions.length) := by
  have hcb := call_bedrock_all_retryable regions systemPrompt env cursor
    conversation user_message hc hall
  refine ⟨by rw [hcb], by rw [hcb]; simp, ?_, ?_⟩
  · intro i hi
    rw [hcb]
    exact mem_range_map_mod regions.length cursor i hc hi
  · intro env' hres
    obtain ⟨k, hk, -, hatt, hex⟩ := dispatchLoop_shape regions
      (build_bedrock_messages systemPrompt conversation user_message) env'
      regions.length cursor 0 0 [] (by omega) hc
    unfold call_bedrock at hres ⊢
    rw [hatt, List.nil_append, List.length_map, List.length_range]
    simpa using hex hres

/-- Witness for C7: two regions, throttled everywhere, cursor 0: the
dispatch ends in the 429 naming both regions. -/
theorem exhaustion_raises_429_naming_regions_witness :
    (call_bedrock ["us-west-2", "us-east-1"] "sys"
        (fun _ _ => .throttled) 0 [] "q").result =
      .error ⟨429, .allRegionsThrottled ["us-west-2", "us-east-1"]⟩ :=
  (exhaustion_raises_429_naming_regions ["us-west-2", "us-east-1"] "sys"
    (fun _ _ => .throttled) 0 [] "q" (by decide) (fun j _ => rfl)).1

/-- C10: within a single dispatch, the attempted region indices are a run
of successive cursor positions modulo the region count — the cursor
advances by exactly one on each retryable failure — of length at most
the region count; they are pairwise distinct and all valid indices. -/
theorem attempted_regions_distinct (regions : List String)
    (systemPrompt : String) (env : ConverseEnv) (cursor : Nat)
    (conversation : List Message) (user_message : String)
    (hc : cursor < regions.length) :
    ∃ k, k ≤ regions.length ∧
      (call_bedrock regions systemPrompt env cursor conversation
          user_message).attempted =
        (List.range k).map (fun j => (cursor + j) % regions.length) ∧
      (call_bedrock regions systemPrompt env cursor conversation
          user_message).attempted.Nodup ∧
      (call_bedrock regions systemPrompt env cursor conversation
          user_message).attempted.length ≤ regions.length ∧
      (∀ i ∈ (call_bedrock regions systemPrompt env cursor conversation
          user_message).attempted, i < regions.length) := by
  obtain ⟨k, hk, -, hatt, -⟩ := dispatchLoop_shape regions
    (build_bedrock_messages systemPrompt conversation user_message) env
    regions.length cursor 0 0 [] (by omega) hc
  unfold call_bedrock
  rw [hatt, List.nil_append]
  refine ⟨k, hk, rfl, nodup_range_map_mod regions.length cursor k hc hk, ?_, ?_⟩
  · rw [List.length_map, List.length_range]; exact hk
  · intro i hi
    obtain ⟨j, -, hji⟩ := List.mem_map.mp hi
    rw [← hji]
    exact Nat.mod_lt _ (by omega)

/-- Witness for C10: three regions, throttled on the first two attempts
then success, cursor 1: the attempted indices are distinct. -/
theorem attempted_regions_distinct_witness :
    ∃ k, k ≤ 3 ∧
      (call_bedrock ["us-west-2", "us-east-1", "us-east-2"] "sys"
          (fun _ j => if j < 2 then .throttled else .success "hi")
          1 [] "q").attempted =
        (List.range k).map (fun j => (1 + j) % 3) ∧
      (call_bedrock ["us-west-2", "us-east-1", "us-east-2"] "sys"
          (fun _ j => if j < 2 then .throttled else .success "hi")
          1 [] "q").attempted.Nodup ∧
      (call_bedrock ["us-west-2", "us-east-1", "us-east-2"] "sys"
          (fun _ j => if j < 2 then .throttled else .success "hi")
          1 [] "q").attempted.length ≤ 3 ∧
      (∀ i ∈ (call_bedrock ["us-west-2", "us-east-1", "us-east-2"] "sys"
          (fun _ j => if j < 2 then .throttled else .success "hi")
          1 [] "q").attempted, i < 3) :=
  attempted_regions_distinct ["us-west-2", "us-east-1", "us-east-2"] "sys"
    (fun _ j => if j < 2 then .throttled else .success "hi") 1 [] "q"
    (by decide)

/-! ## Chat orchestrator lemmas -/

/-- A storage exception during load fails the request with a 500 and
touches nothing. -/
lemma chat_eq_of_load_error (regions : List String) (systemPrompt : String)
    (env : ChatEnv) (cursor : Nat) (store : StoreState) (request : ChatRequest)
    (m : String) (hLE : env.loadError = some m) :
    chat regions systemPrompt env cursor store request =
      ⟨.error ⟨500, .internalError m⟩, cursor, store⟩ := by
  simp [chat, hLE]

/-- A stored document that does not parse as a message list fails the
request with a 500 and touches nothing. -/
lemma chat_eq_of_malformed (regions : List String) (systemPrompt : String)
    (env : ChatEnv) (cursor : Nat) (store : StoreState) (request : ChatRequest)
    (hLE : env.loadError = none)
    (hload : load_conversation store
      (resolve_session_id request.session_id env.freshId) = none) :
    chat regions systemPrompt env cursor store request =
      ⟨.error ⟨500, .internalError "conversation log is malformed"⟩,
        cursor, store⟩ := by
  simp [chat, hLE, hload]

/-- A dispatch failure is re-raised unchanged; the cursor update from the
dispatch persists and the store is untouched. -/
lemma chat_eq_of_dispatch_error (regions : List String) (systemPrompt : String)
    (env : ChatEnv) (cursor : Nat) (store : StoreState) (request : ChatRequest)
    (conv : List Message) (e : HTTPError) (dcur : Nat) (datt : List Nat)
    (hLE : env.loadError = none)
    (hload : load_conversation store
      (resolve_session_id request.session_id env.freshId) = some conv)
    (hcb : call_bedrock regions systemPrompt env.converse cursor conv
      request.message = ⟨.error e, dcur, datt⟩) :
    chat regions systemPrompt env cursor store request =
      ⟨.error e, dcur, store⟩ := by
  simp [chat, hLE, hload, hcb]

/-- A storage exception during save fails the request with a 500: the
generated reply is not returned, and the store is unchanged. -/
lemma chat_eq_of_save_error (regions : List String) (systemPrompt : String)
    (env : ChatEnv) (cursor : Nat) (store : StoreState) (request : ChatRequest)
    (conv : List Message) (reply : String) (dcur : Nat) (datt : List Nat)
    (m : String) (hLE : env.loadError = none)
    (hload : load_conversation store
      (resolve_session_id request.session_id env.freshId) = some conv)
    (hcb : call_bedrock regions systemPrompt env.converse cursor conv
      request.message = ⟨.ok reply, dcur, datt⟩)
    (hSE : env.saveError = some m) :
    chat regions systemPrompt env cursor store request =
      ⟨.error ⟨500, .internalError m⟩, dcur, store⟩ := by
  simp [chat, hLE, hload, hcb, hSE]

/-- The success path: reply returned with the resolved session id, both
turns appended and saved together. -/
lemma chat_eq_of_ok (regions : List String) (systemPrompt : String)
    (env : ChatEnv) (cursor : Nat) (store : StoreState) (request : ChatRequest)
    (conv : List Message) (reply : String) (dcur : Nat) (datt : List Nat)
    (hLE : env.loadError = none)
    (hload : load_conversation store
      (resolve_session_id request.session_id env.freshId) = some conv)
    (hcb : call_bedrock regions systemPrompt env.converse cursor conv
      request.message = ⟨.ok reply, dcur, datt⟩)
    (hSE : env.saveError = none) :
    chat regions systemPrompt env cursor store request =
      ⟨.ok ⟨reply, resolve_session_id request.session_id env.freshId⟩, dcur,
        save_conversation store
          (resolve_session_id request.session_id env.freshId)
          (conv ++ [⟨"user", request.message, env.ts_user⟩,
                    ⟨"assistant", reply, env.ts_assistant⟩])⟩ := by
  simp [chat, hLE, hload, hcb, hSE]

/-! ## Claim theorems about the chat orchestrator -/

/-- C1 is false on the code: `save_conversation` is called inside the
`try` of `chat`, so a storage failure after a successful inference call
is caught by the generic handler and re-raised as a 500 — the generated
reply (`"hello"` here) is not returned.  Concrete input: one region, the
inference call succeeds at once, the save raises `"disk full"`. -/
theorem save_failure_counterexample :
    (chat ["us-west-2"] "sys"
        ⟨"fresh", "T1", "T2", fun _ _ => .success "hello", none,
          some "disk full"⟩
        0 (.s3 ⟨fun _ => none⟩) ⟨"hi there", some "s1"⟩).result =
      .error ⟨500, .internalError "disk full"⟩ ∧
    ∀ r : ChatResponse,
      (chat ["us-west-2"] "sys"
          ⟨"fresh", "T1", "T2", fun _ _ => .success "hello", none,
            some "disk full"⟩
          0 (.s3 ⟨fun _ => none⟩) ⟨"hi there", some "s1"⟩).result ≠
        .ok r := by
  have hcb := call_bedrock_first_success ["us-west-2"] "sys"
    (fun _ _ => .success "hello") 0 [] "hi there" "hello" (by decide) rfl
  have h := chat_eq_of_save_error ["us-west-2"] "sys"
    ⟨"fresh", "T1", "T2", fun _ _ => .success "hello", none, some "disk full"⟩
    0 (.s3 ⟨fun _ => none⟩) ⟨"hi there", some "s1"⟩ [] "hello" 0 [0]
    "disk full" rfl rfl hcb rfl
  rw [h]
  exact ⟨rfl, fun r h' => by simp at h'⟩

/-- C1 (amended): if the inference call succeeds but the subsequent save
fails with a storage error, `chat` fails with a 500 internal error
carrying the save error's message; the generated reply is not returned
to the caller (and the store is unchanged). -/
theorem save_failure_returns_500 (regions : List String)
    (systemPrompt : String) (env : ChatEnv) (cursor : Nat)
    (store : StoreState) (req : ChatRequest) (conv : List Message)
    (reply : String) (dcur : Nat) (datt : List Nat) (m : String)
    (hLE : env.loadError = none)
    (hload : load_conversation store
      (resolve_session_id req.session_id env.freshId) = some conv)
    (hcb : call_bedrock regions systemPrompt env.converse cursor conv
      req.message = ⟨.ok reply, dcur, datt⟩)
    (hSE : env.saveError = some m) :
    (chat regions systemPrompt env cursor store req).result =
        .error ⟨500, .internalError m⟩ ∧
    (chat regions systemPrompt env cursor store req).store = store ∧
    ∀ r : ChatResponse,
      (chat regions systemPrompt env cursor store req).result ≠ .ok r := by
  have h := chat_eq_of_save_error regions systemPrompt env cursor store req
    conv reply dcur datt m hLE hload hcb hSE
  rw [h]
  exact ⟨rfl, rfl, fun r h' => by simp at h'⟩

/-- Witness for the amended C1: one region, filesystem backend, save
raises `"boom"`: the request fails with that 500. -/
theorem save_failure_returns_500_witness :
    (chat ["us-west-2"] "sys"
        ⟨"fresh", "T1", "T2", fun _ _ => .success "hello", none, some "boom"⟩
        0 (.fs "../memory" ⟨fun _ => none⟩) ⟨"hi", none⟩).result =
      .error ⟨500, .internalError "boom"⟩ :=
  (save_failure_returns_500 ["us-west-2"] "sys"
    ⟨"fresh", "T1", "T2", fun _ _ => .success "hello", none, some "boom"⟩
    0 (.fs "../memory" ⟨fun _ => none⟩) ⟨"hi", none⟩ [] "hello" 0 [0] "boom"
    rfl rfl
    (call_bedrock_first_success ["us-west-2"] "sys"
      (fun _ _ => .success "hello") 0 [] "hi" "hello" (by decide) rfl)
    rfl).1

/-- C2: with `N` configured regions, the cursor at 0 and a throttled
outcome on each of the first `N-1` attempts then success on the `N`-th,
`chat` succeeds with that reply; the cursor is left as-is at index `N-1`
(the `N`-th region, successor of the `N-1` throttled ones — not reset,
not advanced), the dispatch attempted the indices `0, …, N-1` in order,
and index `N-1` is the first region attempted by the next dispatch
call. -/
theorem failover_succeeds_on_last_region (regions : List String)
    (systemPrompt reply : String) (env : ChatEnv) (store : StoreState)
    (req : ChatRequest) (conv : List Message)
    (hpos : 0 < regions.length)
    (hLE : env.loadError = none) (hSE : env.saveError = none)
    (hload : load_conversation store
      (resolve_session_id req.session_id env.freshId) = some conv)
    (hthr : ∀ j, j < regions.length - 1 →
      env.converse (build_bedrock_messages systemPrompt conv req.message) j =
        .throttled)
    (hsucc : env.converse (build_bedrock_messages systemPrompt conv
      req.message) (regions.length - 1) = .success reply) :
    (chat regions systemPrompt env 0 store req).result =
        .ok ⟨reply, resolve_session_id req.session_id env.freshId⟩ ∧
    (chat regions systemPrompt env 0 store req).cursor =
        regions.length - 1 ∧
    (call_bedrock regions systemPrompt env.converse 0 conv
        req.message).attempted = List.range regions.length ∧
    (∀ env' : ConverseEnv, ∀ conv' : List Message, ∀ m' : String,
      (call_bedrock regions systemPrompt env' (regions.length - 1) conv'
        m').attempted.head? = some (regions.length - 1)) := by
  have hcb : call_bedrock regions systemPrompt env.converse 0 conv
      req.message =
      ⟨.ok reply, regions.length - 1, List.range regions.length⟩ := by
    unfold call_bedrock
    rw [dispatchLoop_retry_run regions _ env.converse (regions.length - 1)
      0 0 0 [] hpos (by omega)
      (fun j hj => by
        rw [Nat.zero_add, hthr j hj]; rfl)]
    rw [dispatchLoop_success _ _ _ _ _ _ _ (by omega) reply
      (by simpa using hsucc)]
    have hm : (0 + (regions.length - 1)) % regions.length =
        regions.length - 1 := by
      rw [Nat.zero_add, Nat.mod_eq_of_lt (by omega)]
    have hmap : (List.range (regions.length - 1)).map
        (fun j => (0 + j) % regions.length) =
        List.range (regions.length - 1) := by
      conv_rhs => rw [← List.map_id' (List.range (regions.length - 1))]
      refine List.map_congr_left ?_
      intro j hj
      rw [List.mem_range] at hj
      rw [Nat.zero_add, Nat.mod_eq_of_lt (by omega)]
    have hrange : List.range (regions.length - 1) ++ [regions.length - 1] =
        List.range regions.length := by
      rw [← List.range_succ]
      congr 1
      omega
    rw [List.nil_append, hm, hmap, hrange]
  refine ⟨?_, ?_, by rw [hcb], ?_⟩
  · rw [chat_eq_of_ok regions systemPrompt env 0 store req conv reply
      (regions.length - 1) (List.range regions.length) hLE hload hcb hSE]
  · rw [chat_eq_of_ok regions systemPrompt env 0 store req conv reply
      (regions.length - 1) (List.range regions.length) hLE hload hcb hSE]
  · intro env' conv' m'
    exact call_bedrock_first_attempt regions systemPrompt env'
      (regions.length - 1) conv' m' (by omega)

/-- Witness for C2: three regions, throttled on attempts 1 and 2,
success on attempt 3: the reply comes back and the cursor rests at
index 2. -/
theorem failover_succeeds_on_last_region_witness :
    (chat ["us-west-2", "us-east-1", "us-east-2"] "sys"
        ⟨"fresh", "T1", "T2",
          fun _ j => if j < 2 then .throttled else .success "final reply",
          none, none⟩
        0 (.s3 ⟨fun _ => none⟩) ⟨"question", none⟩).result =
      .ok ⟨"final reply", "fresh"⟩ ∧
    (chat ["us-west-2", "us-east-1", "us-east-2"] "sys"
        ⟨"fresh", "T1", "T2",
          fun _ j => if j < 2 then .throttled else .success "final reply",
          none, none⟩
        0 (.s3 ⟨fun _ => none⟩) ⟨"question", none⟩).cursor = 2 :=
  have h := failover_succeeds_on_last_region
    ["us-west-2", "us-east-1", "us-east-2"] "sys" "final reply"
    ⟨"fresh", "T1", "T2",
      fun _ j => if j < 2 then .throttled else .success "final reply",
      none, none⟩
    (.s3 ⟨fun _ => none⟩) ⟨"question", none⟩ [] (by decide) rfl rfl rfl
    (fun j hj => by
      have h2 : j < 2 := hj
      simp [h2])
    rfl
  ⟨h.1, h.2.1⟩

/-- C5: a stored log never gains a partially-written turn.  Every `chat`
request either leaves the store untouched, or — exactly on the success
path — appends the user message and the assistant reply together in one
save of the full log.  In particular, when every configured region
answers with a retryable (throttled / access-denied) outcome, nothing is
persisted. -/
theorem conversation_turn_atomicity (regions : List String)
    (systemPrompt : String) (env : ChatEnv) (cursor : Nat)
    (store : StoreState) (req : ChatRequest) :
    ((chat regions systemPrompt env cursor store req).store = store ∨
      ∃ conv reply,
        load_conversation store
          (resolve_session_id req.session_id env.freshId) = some conv ∧
        (chat regions systemPrompt env cursor store req).result =
          .ok ⟨reply, resolve_session_id req.session_id env.freshId⟩ ∧
        (chat regions systemPrompt env cursor store req).store =
          save_conversation store
            (resolve_session_id req.session_id env.freshId)
            (conv ++ [⟨"user", req.message, env.ts_user⟩,
                      ⟨"assistant", reply, env.ts_assistant⟩])) ∧
    ((∀ msgs : List BedrockMessage, ∀ j, j < regions.length →
        retryable (env.converse msgs j) = true) →
      cursor < regions.length →
      (chat regions systemPrompt env cursor store req).store = store) := by
  constructor
  · cases hLE : env.loadError with
    | some m =>
        left
        rw [chat_eq_of_load_error regions systemPrompt env cursor store req
          m hLE]
    | none =>
        cases hload : load_conversation store
            (resolve_session_id req.session_id env.freshId) with
        | none =>
            left
            rw [chat_eq_of_malformed regions systemPrompt env cursor store
              req hLE hload]
        | some conv =>
            rcases hcb : call_bedrock regions systemPrompt env.converse
                cursor conv req.message with ⟨res, dcur, datt⟩
            cases res with
            | error e =>
                left
                rw [chat_eq_of_dispatch_error regions systemPrompt env cursor
                  store req conv e dcur datt hLE hload hcb]
            | ok reply =>
                cases hSE : env.saveError with
                | some m =>
                    left
                    rw [chat_eq_of_save_error regions systemPrompt env cursor
                      store req conv reply dcur datt m hLE hload hcb hSE]
                | none =>
                    right
                    refine ⟨conv, reply, rfl, ?_, ?_⟩
                    · rw [chat_eq_of_ok regions systemPrompt env cursor store
                        req conv reply dcur datt hLE hload hcb hSE]
                    · rw [chat_eq_of_ok regions systemPrompt env cursor store
                        req conv reply dcur datt hLE hload hcb hSE]
  · intro hall hc
    cases hLE : env.loadError with
    | some m =>
        rw [chat_eq_of_load_error regions systemPrompt env cursor store req
          m hLE]
    | none =>
        cases hload : load_conversation store
            (resolve_session_id req.session_id env.freshId) with
        | none =>
            rw [chat_eq_of_malformed regions systemPrompt env cursor store
              req hLE hload]
        | some conv =>
            have hcb := call_bedrock_all_retryable regions systemPrompt
              env.converse cursor conv req.message hc
              (fun j hj => hall _ j hj)
            rw [chat_eq_of_dispatch_error regions systemPrompt env cursor
              store req conv _ _ _ hLE hload hcb]

/-- Witness for C5: one region, throttled: the store is untouched. -/
theorem conversation_turn_atomicity_witness :
    (chat ["us-west-2"] "sys"
        ⟨"fresh", "T1", "T2", fun _ _ => .throttled, none, none⟩
        0 (.s3 ⟨fun _ => none⟩) ⟨"hi", none⟩).store =
      .s3 ⟨fun _ => none⟩ :=
  (conversation_turn_atomicity ["us-west-2"] "sys"
    ⟨"fresh", "T1", "T2", fun _ _ => .throttled, none, none⟩
    0 (.s3 ⟨fun _ => none⟩) ⟨"hi", none⟩).2
    (fun _ _ _ => rfl) (by decide)

/-- C9: a `chat` request carrying the empty string as its session id is
treated as having none: the response carries the freshly generated
(non-empty) identifier, the new turn is stored under that identifier,
and nothing is stored under the empty string. -/
theorem empty_session_id_gets_fresh_id (regions : List String)
    (systemPrompt : String) (env : ChatEnv) (cursor : Nat)
    (store : StoreState) (req : ChatRequest) (conv : List Message)
    (reply : String) (dcur : Nat) (datt : List Nat)
    (hsid : req.session_id = some "")
    (hfresh : env.freshId ≠ "")
    (hLE : env.loadError = none) (hSE : env.saveError = none)
    (hload : load_conversation store env.freshId = some conv)
    (hcb : call_bedrock regions systemPrompt env.converse cursor conv
      req.message = ⟨.ok reply, dcur, datt⟩) :
    (chat regions systemPrompt env cursor store req).result =
        .ok ⟨reply, env.freshId⟩ ∧
    env.freshId ≠ "" ∧
    load_conversation (chat regions systemPrompt env cursor store req).store
        env.freshId =
      some (conv ++ [⟨"user", req.message, env.ts_user⟩,
                     ⟨"assistant", reply, env.ts_assistant⟩]) ∧
    load_conversation (chat regions systemPrompt env cursor store req).store
        "" = load_conversation store "" := by
  have hres : resolve_session_id req.session_id env.freshId = env.freshId := by
    rw [hsid]
    simp [resolve_session_id]
  have hload' : load_conversation store
      (resolve_session_id req.session_id env.freshId) = some conv := by
    rw [hres]; exact hload
  have h := chat_eq_of_ok regions systemPrompt env cursor store req conv
    reply dcur datt hLE hload' hcb hSE
  rw [h, hres]
  refine ⟨rfl, hfresh, ?_, ?_⟩
  · exact load_conversation_save store env.freshId _
  · exact load_conversation_save_other store env.freshId "" _
      (fun hemp => hfresh hemp.symm)

/-- Witness for C9: empty session id in the request, generated id
`"generated-id"`: the response carries the generated id. -/
theorem empty_session_id_gets_fresh_id_witness :
    (chat ["us-west-2"] "sys"
        ⟨"generated-id", "T1", "T2", fun _ _ => .success "hello", none, none⟩
        0 (.s3 ⟨fun _ => none⟩) ⟨"hi", some ""⟩).result =
      .ok ⟨"hello", "generated-id"⟩ :=
  (empty_session_id_gets_fresh_id ["us-west-2"] "sys"
    ⟨"generated-id", "T1", "T2", fun _ _ => .success "hello", none, none⟩
    0 (.s3 ⟨fun _ => none⟩) ⟨"hi", some ""⟩ [] "hello" 0 [0]
    rfl (by decide) rfl rfl rfl
    (call_bedrock_first_success ["us-west-2"] "sys"
      (fun _ _ => .success "hello") 0 [] "hi" "hello" (by decide) rfl)).1

end DigitalTwin
